import Mathlib

/-!
Shallow embedding of the rubric-based grading engine of `grade_answers.py`
(repository FinQs).  Python strings are modelled as Lean `String` / `List Char`
(the inputs are ASCII); Python floats are modelled as exact rationals `ℚ`
(every constant that appears in the code — 0.5, 0.6, 20, 30, 50, 100 — is a
dyadic or small rational, and the display-only `round(x, 1)` calls of the
source are omitted as float presentation).  Python dicts keyed by `int` are
modelled as insertion-ordered association lists with Python's
assignment/lookup semantics.
-/

/-- Python's `str.isspace` character class restricted to ASCII (the set that
`str.strip()` and `\s` remove): space, tab, newline, carriage return,
vertical tab, form feed. -/
def pyIsSpace (c : Char) : Bool :=
  c == ' ' || c == '\t' || c == '\n' || c == '\r' || c == '\x0b' || c == '\x0c'

/-- Python's `\w` word-character class restricted to ASCII: letters, digits
and underscore. -/
def pyIsWordChar (c : Char) : Bool :=
  c.isAlphanum || c == '_'

/-- `str.lower()` on ASCII text. -/
def lowerL (l : List Char) : List Char :=
  l.map Char.toLower

/-- `str.strip()`: remove leading and trailing whitespace. -/
def pyStrip (l : List Char) : List Char :=
  (((l.dropWhile pyIsSpace).reverse.dropWhile pyIsSpace)).reverse

/-- The emptiness test `not s or s.strip() == ""` used by both
`check_criterion` (line 62) and `grade_answer` (line 124). -/
def pyIsBlank (l : List Char) : Bool :=
  l.isEmpty || pyStrip l == []

/-- Python's substring operator `needle in haystack`. -/
def isSub (n : List Char) : List Char → Bool
  | [] => n.isEmpty
  | c :: t => n.isPrefixOf (c :: t) || isSub n t

/-- `s.replace(',', '')`. -/
def removeCommas (l : List Char) : List Char :=
  l.filter (fun c => !(c == ','))

/-- `re.sub(r'^final answer:\s*', '', s, flags=re.IGNORECASE)` as applied to
the already lower-cased answer (line 70 of the source): if the text starts
with `final answer:` drop that prefix and the following whitespace run. -/
def stripFA (s : List Char) : List Char :=
  if ("final answer:".toList).isPrefixOf s then
    (s.drop 13).dropWhile pyIsSpace
  else s

/-- Character class `[\d,]` of the number-extraction regex. -/
def numChar (c : Char) : Bool :=
  c.isDigit || c == ','

/-- The `\.?\d*%?` tail of the number-extraction regex, matched greedily at
the head of `cs`; returns the consumed characters and the rest. -/
def numTail (cs : List Char) : List Char × List Char :=
  match cs with
  | '.' :: r =>
    (match r.dropWhile Char.isDigit with
     | '%' :: r3 => ('.' :: (r.takeWhile Char.isDigit ++ ['%']), r3)
     | _ => ('.' :: r.takeWhile Char.isDigit, r.dropWhile Char.isDigit))
  | '%' :: r3 => (['%'], r3)
  | _ => ([], cs)

/-- Scanning loop of `re.findall(r'[\d,]+\.?\d*%?', s)`: the fuel argument
only bounds the recursion depth, and one unit of fuel is spent per character
consumed, so fuel `s.length` (as `findNumbers` supplies) always suffices. -/
def findNumbersGo : Nat → List Char → List (List Char)
  | 0, _ => []
  | _, [] => []
  | fuel + 1, c :: cs =>
    if numChar c then
      ((c :: cs.takeWhile numChar) ++ (numTail (cs.dropWhile numChar)).1)
        :: findNumbersGo fuel (numTail (cs.dropWhile numChar)).2
    else
      findNumbersGo fuel cs

/-- `re.findall(r'[\d,]+\.?\d*%?', s)` (line 74 of the source): scan left to
right; at a digit-or-comma character the pattern matches the maximal
digit/comma run, an optional decimal point with following digits, and an
optional percent sign; matches are non-overlapping. -/
def findNumbers (l : List Char) : List (List Char) :=
  findNumbersGo l.length l

/-- `re.split(r'[:\n]', s)`: split at every colon or newline, keeping empty
pieces. -/
def splitColonNL (l : List Char) : List (List Char) :=
  l.foldr
    (fun c acc =>
      if c == ':' || c == '\n' then [] :: acc
      else
        match acc with
        | [] => [[c]]
        | p :: ps => (c :: p) :: ps)
    [[]]

/-- Accumulator-style grouping of the maximal runs of characters satisfying
`p`, left to right; `cur` holds the characters of the currently open run in
reverse order. -/
def tokensGo (p : Char → Bool) (cur : List Char) : List Char → List (List Char)
  | [] => if cur.isEmpty then [] else [cur.reverse]
  | c :: cs =>
    if p c then tokensGo p (c :: cur) cs
    else if cur.isEmpty then tokensGo p cur cs
    else cur.reverse :: tokensGo p [] cs

/-- `str.split()` with no argument: split on whitespace runs, discarding
empty pieces. -/
def pySplitWs (l : List Char) : List (List Char) :=
  tokensGo (fun c => !pyIsSpace c) [] l

/-- `re.findall(r'\b\w+\b', s)`: the maximal runs of word characters. -/
def wordTokens (l : List Char) : List (List Char) :=
  tokensGo pyIsWordChar [] l

/-- The fixed stop-word list of `check_criterion` (lines 91-92). -/
def stopwords : List (List Char) :=
  (["the", "and", "for", "that", "this", "with", "from", "were", "have",
    "has", "was"]).map String.toList

/-- The significant words of one key phrase:
`[w for w in phrase.lower().split() if len(w) > 3 and w not in stopwords]`. -/
def sigWords (phrase : List Char) : List (List Char) :=
  (pySplitWs (lowerL phrase)).filter
    (fun w => decide (3 < w.length) && !(stopwords.contains w))

/-- One iteration of the key-phrase loop (lines 89-98): the phrase counts as
covered when it has significant words and at least half of them occur as
substrings of the lower-cased answer (`found_words >= len(words) * 0.5`,
which is exact integer arithmetic). -/
def phraseCovered (answer_lower phrase : List Char) : Bool :=
  let ws := sigWords phrase
  !ws.isEmpty && decide (ws.length ≤ 2 * ws.countP (fun w => isSub w answer_lower))

/-- `{overlap:.0%}` of the evidence f-string at line 112: the overlap ratio
`num/den` as a percentage rounded to an integer, half-to-even as Python
formats it. -/
def pctRound (num den : Nat) : Nat :=
  let q := (100 * num) / den
  let r := (100 * num) % den
  if 2 * r < den then q
  else if den < 2 * r then q + 1
  else if q % 2 == 0 then q else q + 1

/-- `check_criterion(criterion_text, answer, ground_truth)` (lines 57-114).
The unused local `criterion_lower` of line 67 is omitted.  The float
comparisons `matches / total >= 0.6` and `overlap >= 0.6` are modelled as
the exact rational comparisons `5 * matches ≥ 3 * total` and
`5 * inter ≥ 3 * |criterion_words|`. -/
def check_criterion (criterion_text answer ground_truth : String) : Bool × String :=
  if pyIsBlank answer.toList then (false, "No answer provided")
  else
    let answer_lower := lowerL answer.toList
    let answer_clean := stripFA answer_lower
    let numbers := findNumbers criterion_text.toList
    if !numbers.isEmpty &&
        numbers.all (fun num => isSub (removeCommas num) (removeCommas answer_clean)) then
      (true, "Found required numbers: " ++ String.intercalate ", " (numbers.map String.mk))
    else
      let key_phrases := ((splitColonNL criterion_text.toList).map pyStrip).filter
        (fun p => !p.isEmpty)
      let total := key_phrases.length
      let covered := key_phrases.countP (phraseCovered answer_lower)
      if decide (0 < total) && decide (3 * total ≤ 5 * covered) then
        (true, "Found " ++ toString covered ++ "/" ++ toString total
          ++ " key concepts from criterion")
      else if decide (criterion_text.length < 100) then
        let criterion_words :=
          (((wordTokens criterion_text.toList).filter (fun w => decide (3 < w.length))).map
            lowerL).dedup
        let answer_words :=
          (((wordTokens answer.toList).filter (fun w => decide (3 < w.length))).map
            lowerL).dedup
        let inter := (criterion_words.filter (fun w => answer_words.contains w)).length
        if !criterion_words.isEmpty && decide (3 * criterion_words.length ≤ 5 * inter) then
          (true, "Strong word overlap (" ++ toString (pctRound inter criterion_words.length)
            ++ "%) with criterion")
        else (false, "Criterion not clearly met in answer")
      else (false, "Criterion not clearly met in answer")

/-- One rubric entry as produced by deserialising the `Rubric` cell:
`{'operator': ..., 'criteria': ...}`. -/
structure Criterion where
  operator : String
  criteria : String
deriving DecidableEq

/-- One element of an answer's `sources` list; `url` is optional because the
grader reads it with `s.get('url', '')`. -/
structure Source where
  url : Option String
deriving DecidableEq

/-- The per-question answer dict handed to `grade_answer`: the grader reads
`answer` and `sources` with `.get` defaults, so both are optional, as is the
informational `question` key. -/
structure AnswerData where
  question : Option String
  answer : Option String
  sources : Option (List Source)
deriving DecidableEq

/-- The per-question ground-truth dict built by `load_ground_truth`. -/
structure GroundTruthData where
  question : String
  answer : String
  question_type : String
  expert_time : Int
  rubric : List Criterion
deriving DecidableEq

/-- One element of `rubric_results`. -/
structure RubricResult where
  type : String
  criteria : String
  met : Bool
  evidence : String
deriving DecidableEq

/-- The dict returned by `grade_answer` (lines 216-228).  The source rounds
`correctness_score` and `final_score` to one decimal for display
(`round(x, 1)` on floats); the fields here carry the exact rational values. -/
structure GradingResult where
  question_num : Nat
  question_type : String
  difficulty : String
  expert_time_mins : Int
  status : String
  correctness_score : ℚ
  has_contradictions : Bool
  sources_quality : String
  rubric_results : List RubricResult
  final_score : ℚ
  comments : String

/-- `categorize_difficulty(question_type, expert_time)` (lines 46-55); the
`question_type` argument is accepted but unused, as in the source. -/
def categorize_difficulty (question_type : String) (expert_time : Int) : String :=
  if expert_time ≤ 5 then "Easy"
  else if expert_time ≤ 15 then "Medium"
  else if expert_time ≤ 30 then "Hard"
  else "Very Hard"

/-- The status block of `grade_answer` (lines 123-129): note that the marker
test `"FINAL ANSWER:" in answer_text` is a case-sensitive substring check. -/
def statusOf (answer_text : String) : String :=
  if pyIsBlank answer_text.toList then "Skipped"
  else if isSub ("FINAL ANSWER:".toList) answer_text.toList then "Answered"
  else "Attempted"

/-- `[r for r in rubric if r['operator'] == 'correctness']`. -/
def correctnessCriteria (rubric : List Criterion) : List Criterion :=
  rubric.filter (fun r => r.operator == "correctness")

/-- `[r for r in rubric if r['operator'] == 'contradiction']`. -/
def contradictionCriteria (rubric : List Criterion) : List Criterion :=
  rubric.filter (fun r => r.operator == "contradiction")

/-- `met_count` after the correctness loop (lines 139-154). -/
def metCount (rubric : List Criterion) (answer_text gt_answer : String) : Nat :=
  (correctnessCriteria rubric).countP
    (fun c => (check_criterion c.criteria answer_text gt_answer).1)

/-- The correctness score before the contradiction penalty (lines 156-160).
`(met_count / len(correctness_criteria)) * 100` is float arithmetic in the
source, modelled exactly in `ℚ`. -/
def rawCorrectness (rubric : List Criterion) (answer_text gt_answer : String) : ℚ :=
  if 0 < (correctnessCriteria rubric).length then
    ((metCount rubric answer_text gt_answer : ℚ) / ((correctnessCriteria rubric).length : ℚ))
      * 100
  else if statusOf answer_text == "Skipped" then 0 else 50

/-- The contradiction flag (lines 162-182): true when some contradiction
criterion is not met and the status is Answered. -/
def hasContraFlag (rubric : List Criterion) (answer_text gt_answer : String) : Bool :=
  statusOf answer_text == "Answered" &&
    (contradictionCriteria rubric).any
      (fun c => !(check_criterion c.criteria answer_text gt_answer).1)

/-- The correctness score after the contradiction penalty of lines 184-186:
`if has_contradictions and correctness_score < 30: max(0, score - 20)`. -/
def penalizedScore (rubric : List Criterion) (answer_text gt_answer : String) : ℚ :=
  if hasContraFlag rubric answer_text gt_answer = true ∧
      rawCorrectness rubric answer_text gt_answer < 30 then
    max 0 (rawCorrectness rubric answer_text gt_answer - 20)
  else rawCorrectness rubric answer_text gt_answer

/-- The source-quality block of `grade_answer` (lines 188-198). -/
def sourcesQuality (sources : List Source) : String :=
  if sources.isEmpty || sources.length == 0 then "Poor"
  else if 2 ≤ sources.length &&
      sources.any (fun s =>
        isSub ("sec.gov".toList) (lowerL (s.url.getD "").toList) ||
        isSub ("investor".toList) (lowerL (s.url.getD "").toList) ||
        isSub ("ir.".toList) (lowerL (s.url.getD "").toList)) then "Good"
  else if 1 ≤ sources.length then "Acceptable"
  else "Poor"

/-- The final-score block of lines 200-212: `0` if Skipped,
`correctness_score * 0.5` if Attempted, `correctness_score` if Answered. -/
def finalScoreOf (rubric : List Criterion) (answer_text gt_answer : String) : ℚ :=
  if statusOf answer_text == "Skipped" then 0
  else if statusOf answer_text == "Attempted" then
    penalizedScore rubric answer_text gt_answer * (1 / 2)
  else penalizedScore rubric answer_text gt_answer

/-- The `comments` strings of lines 200-212. -/
def commentsOf (status : String) (met total : Nat) (hasContra : Bool) (sq : String) : String :=
  if status == "Skipped" then "Question was skipped - no answer provided"
  else if status == "Attempted" then
    "Answer was attempted but may not be complete. Met " ++ toString met ++ "/"
      ++ toString total ++ " rubric criteria."
  else if hasContra then
    "Answer provided but has contradictions. Met " ++ toString met ++ "/" ++ toString total
      ++ " rubric criteria. Sources: " ++ sq ++ "."
  else
    "Answer provided. Met " ++ toString met ++ "/" ++ toString total
      ++ " rubric criteria. Sources: " ++ sq ++ "."

/-- `grade_answer(question_num, answer_data, ground_truth_data)`
(lines 116-228), assembled from the block helpers above. -/
def grade_answer (question_num : Nat) (answer_data : AnswerData)
    (ground_truth_data : GroundTruthData) : GradingResult :=
  let answer_text := answer_data.answer.getD ""
  let sources := answer_data.sources.getD []
  let rubric := ground_truth_data.rubric
  { question_num := question_num
    question_type := ground_truth_data.question_type
    difficulty := categorize_difficulty ground_truth_data.question_type
      ground_truth_data.expert_time
    expert_time_mins := ground_truth_data.expert_time
    status := statusOf answer_text
    correctness_score := penalizedScore rubric answer_text ground_truth_data.answer
    has_contradictions := hasContraFlag rubric answer_text ground_truth_data.answer
    sources_quality := sourcesQuality sources
    rubric_results :=
      (correctnessCriteria rubric).map (fun c =>
        { type := "correctness", criteria := c.criteria
          met := (check_criterion c.criteria answer_text ground_truth_data.answer).1
          evidence := (check_criterion c.criteria answer_text ground_truth_data.answer).2 })
      ++ (contradictionCriteria rubric).map (fun c =>
        { type := "contradiction", criteria := c.criteria
          met := (check_criterion c.criteria answer_text ground_truth_data.answer).1
          evidence := (check_criterion c.criteria answer_text ground_truth_data.answer).2 })
    final_score := finalScoreOf rubric answer_text ground_truth_data.answer
    comments := commentsOf (statusOf answer_text)
      (metCount rubric answer_text ground_truth_data.answer)
      (correctnessCriteria rubric).length
      (hasContraFlag rubric answer_text ground_truth_data.answer)
      (sourcesQuality sources) }

/-- One row of `public.csv` as seen through `csv.DictReader`.  The `Rubric`
cell is carried already deserialised into a `List Criterion` (the source
deserialises it with a structured-literal evaluation, `eval(row['Rubric'])`,
at line 21) and `Expert time (mins)` already parsed to an integer (the
source applies `int(...)` at line 26); both conversions are outside the
string-level model and the claims under verification do not depend on them. -/
structure CsvRow where
  question : String
  answer : String
  rubric : List Criterion
  question_type : String
  expert_time : Int
deriving DecidableEq

/-- One element of the `answers.json` array as read by `load_answers`:
`question_number` and `question` are accessed unconditionally, while
`answer` and `sources` are read with `.get` defaults. -/
structure AnswerItem where
  question_number : Nat
  question : String
  answer : Option String
  sources : Option (List Source)
deriving DecidableEq

/-- Python `dict` assignment `d[k] = v` on an insertion-ordered association
list with unique keys: overwrite in place if the key exists, else append. -/
def dictSet {α : Type} (d : List (Nat × α)) (k : Nat) (v : α) : List (Nat × α) :=
  if d.any (fun p => p.1 == k) then
    d.map (fun p => if p.1 == k then (p.1, v) else p)
  else d ++ [(k, v)]

/-- Python `d.get(k)` / `d[k]` lookup on such an association list. -/
def dictGet? {α : Type} (d : List (Nat × α)) (k : Nat) : Option α :=
  (d.find? (fun p => p.1 == k)).map (fun p => p.2)

/-- Recursion of `load_ground_truth` over the csv rows, carrying the running
`question_num` counter (starts at 1; rows with an empty `Question` cell are
skipped and do not advance it). -/
def lgtGo (n : Nat) : List CsvRow → List (Nat × GroundTruthData)
  | [] => []
  | r :: rs =>
    if r.question ≠ "" then
      (n, { question := r.question, answer := r.answer,
            question_type := r.question_type, expert_time := r.expert_time,
            rubric := r.rubric }) :: lgtGo (n + 1) rs
    else lgtGo n rs

/-- `load_ground_truth` (lines 12-30): build the ground-truth dict keyed by
the positional question number.  The keys produced are strictly increasing,
so the association list built by successive fresh-key insertions is the
plain list of pairs in production order. -/
def load_ground_truth (rows : List CsvRow) : List (Nat × GroundTruthData) :=
  lgtGo 1 rows

/-- `load_answers` (lines 32-44): fold the JSON array into a dict keyed by
`question_number`; a repeated key overwrites (last write wins), and missing
`answer`/`sources` fields default to `""` and `[]`. -/
def load_answers (items : List AnswerItem) : List (Nat × AnswerData) :=
  items.foldl
    (fun d it =>
      dictSet d it.question_number
        { question := some it.question
          answer := some (it.answer.getD "")
          sources := some (it.sources.getD []) })
    []

/-- The summary dict of `calculate_summary` (lines 230-267); the two grouped
maps preserve first-insertion key order as Python dicts do, and the float
means are carried as exact rationals (display rounding omitted). -/
structure Summary where
  total_questions : Nat
  answered : Nat
  attempted : Nat
  skipped : Nat
  average_score : ℚ
  by_difficulty : List (String × ℚ)
  by_question_type : List (String × ℚ)

/-- The distinct values of `key` over `rs` in first-occurrence order — the
iteration order of the `defaultdict` built at lines 240-242 / 250-252. -/
def groupKeys (key : GradingResult → String) : List GradingResult → List String
  | [] => []
  | r :: rs => key r :: (groupKeys key rs).filter (fun k => !(k == key r))

/-- The grouped means of `final_score` (lines 244-247 / 254-257):
`round(sum(scores)/len(scores), 1) if scores else 0` per group, modelled
with exact rational division (groups are nonempty by construction, matching
the source where every key present holds at least one score). -/
def groupMeans (key : GradingResult → String) (rs : List GradingResult) :
    List (String × ℚ) :=
  (groupKeys key rs).map (fun k =>
    let scores := (rs.filter (fun r => key r == k)).map (fun r => r.final_score)
    (k, if 0 < scores.length then scores.sum / (scores.length : ℚ) else 0))

/-- `calculate_summary(graded_results)` (lines 230-267). -/
def calculate_summary (graded_results : List GradingResult) : Summary :=
  { total_questions := graded_results.length
    answered := graded_results.countP (fun r => r.status == "Answered")
    attempted := graded_results.countP (fun r => r.status == "Attempted")
    skipped := graded_results.countP (fun r => r.status == "Skipped")
    average_score :=
      if 0 < graded_results.length then
        (graded_results.map (fun r => r.final_score)).sum / (graded_results.length : ℚ)
      else 0
    by_difficulty := groupMeans (fun r => r.difficulty) graded_results
    by_question_type := groupMeans (fun r => r.question_type) graded_results }

/-- The grading loop of `main` (lines 281-285): iterate the fixed range
`range(1, 51)`; for each question number present in the ground truth, grade
the stored answer, substituting `{'answer': '', 'sources': []}` when the
answer store has no entry for that number. -/
def mainGraded (rows : List CsvRow) (items : List AnswerItem) : List GradingResult :=
  (List.range' 1 50).filterMap (fun q =>
    (dictGet? (load_ground_truth rows) q).map (fun g =>
      grade_answer q
        ((dictGet? (load_answers items) q).getD
          { question := none, answer := some "", sources := some [] })
        g))

/-- The output object of `main` (lines 292-295):
`{'questions': graded_results, 'summary': summary}`. -/
def mainReport (rows : List CsvRow) (items : List AnswerItem) :
    List GradingResult × Summary :=
  (mainGraded rows items, calculate_summary (mainGraded rows items))

example : findNumbers ("Revenue grew 44.7%".toList) = ["44.7%".toList] := by decide

example : (check_criterion "Revenue grew 44.7%" "It grew 44.7% this year" "x").1 = true := by
  decide

example : check_criterion "Revenue grew 44.7%" "44%" "x" =
    (false, "Criterion not clearly met in answer") := by decide

example : statusOf "FINAL ANSWER: 125 billion" = "Answered" := by decide

example : statusOf "I think it is around 125 billion" = "Attempted" := by decide

example : statusOf "" = "Skipped" := by decide

theorem isSub_iff (n : List Char) (s : List Char) : isSub n s = true ↔ n <:+: s := by
  induction s with
  | nil =>
    simp only [isSub, List.isEmpty_iff, List.infix_nil]
  | cons c t ih =>
    simp only [isSub, Bool.or_eq_true]
    rw [ih, List.isPrefixOf_iff_prefix]
    exact List.infix_cons_iff.symm

theorem pyIsBlank_iff (l : List Char) :
    pyIsBlank l = true ↔ ∀ c ∈ l, pyIsSpace c = true := by
  unfold pyIsBlank pyStrip
  rw [Bool.or_eq_true, List.isEmpty_iff, beq_iff_eq, List.reverse_eq_nil_iff,
    List.dropWhile_eq_nil_iff]
  constructor
  · rintro (rfl | h) c hc
    · cases hc
    · rcases List.mem_append.mp
        ((List.takeWhile_append_dropWhile (p := pyIsSpace) (l := l)) ▸ hc) with h1 | h2
      · exact List.mem_takeWhile_imp h1
      · exact h c (List.mem_reverse.mpr h2)
  · intro h
    right
    intro a ha
    exact h a ((List.dropWhile_suffix pyIsSpace).sublist.subset (List.mem_reverse.mp ha))

/-- C6: for every criterion text and every reference answer, `check_criterion`
on an empty or whitespace-only answer returns `met = false` with evidence
exactly `"No answer provided"`. -/
theorem check_criterion_blank_answer (criterion_text answer ground_truth : String)
    (h : ∀ c ∈ answer.toList, pyIsSpace c = true) :
    check_criterion criterion_text answer ground_truth = (false, "No answer provided") := by
  unfold check_criterion
  rw [if_pos ((pyIsBlank_iff answer.toList).mpr h)]

/-- C6 witness: a whitespace-only answer is refused with the fixed evidence
string, for a concrete criterion. -/
theorem check_criterion_blank_answer_witness :
    check_criterion "Revenue grew 44.7%" "  \t " "ref" = (false, "No answer provided") :=
  check_criterion_blank_answer "Revenue grew 44.7%" "  \t " "ref" (by decide)

/-- Case-insensitive containment of the marker phrase, as the spec words the
Answered test.  Modelled from the spec for comparison with the code's
case-sensitive test; the code itself lower-cases neither side at line 126. -/
def containsCI (needle haystack : String) : Bool :=
  isSub (lowerL needle.toList) (lowerL haystack.toList)

/-- C2 counterexample: the answer text `"final answer: 42"` contains the
marker phrase case-insensitively, yet the code classifies it Attempted, not
Answered — line 126 tests `"FINAL ANSWER:" in answer_text` case-sensitively. -/
theorem status_marker_case_sensitive_cex :
    containsCI "FINAL ANSWER:" "final answer: 42" = true ∧
    (grade_answer 1
      { question := none, answer := some "final answer: 42", sources := some [] }
      { question := "q", answer := "a", question_type := "t", expert_time := 1,
        rubric := [] }).status = "Attempted" := by
  constructor
  · decide
  · decide

/-- C2 (amended): `grade_answer` assigns status Skipped exactly when the
answer text is empty or whitespace-only, Answered exactly when it is not
blank and contains `"FINAL ANSWER:"` as a case-SENSITIVE substring, and
Attempted exactly when it is not blank and lacks that substring. -/
theorem grade_answer_status_characterization (n : Nat) (a : AnswerData)
    (gt : GroundTruthData) :
    ((grade_answer n a gt).status = "Skipped" ↔
      (∀ c ∈ (a.answer.getD "").toList, pyIsSpace c = true)) ∧
    ((grade_answer n a gt).status = "Answered" ↔
      (¬ (∀ c ∈ (a.answer.getD "").toList, pyIsSpace c = true) ∧
        ("FINAL ANSWER:".toList) <:+: (a.answer.getD "").toList)) ∧
    ((grade_answer n a gt).status = "Attempted" ↔
      (¬ (∀ c ∈ (a.answer.getD "").toList, pyIsSpace c = true) ∧
        ¬ (("FINAL ANSWER:".toList) <:+: (a.answer.getD "").toList))) := by
  have hst : (grade_answer n a gt).status = statusOf (a.answer.getD "") := rfl
  rw [hst]
  unfold statusOf
  by_cases h1 : pyIsBlank (a.answer.getD "").toList = true
  · rw [if_pos h1]
    have hP : ∀ c ∈ (a.answer.getD "").toList, pyIsSpace c = true :=
      (pyIsBlank_iff _).mp h1
    refine ⟨⟨fun _ => hP, fun _ => rfl⟩, ?_, ?_⟩
    · exact ⟨fun h => absurd h (by decide), fun hh => absurd hP hh.1⟩
    · exact ⟨fun h => absurd h (by decide), fun hh => absurd hP hh.1⟩
  · have hP : ¬ ∀ c ∈ (a.answer.getD "").toList, pyIsSpace c = true :=
      fun hh => h1 ((pyIsBlank_iff _).mpr hh)
    rw [if_neg h1]
    by_cases h2 : isSub ("FINAL ANSWER:".toList) (a.answer.getD "").toList = true
    · rw [if_pos h2]
      have hQ : ("FINAL ANSWER:".toList) <:+: (a.answer.getD "").toList :=
        (isSub_iff _ _).mp h2
      refine ⟨⟨fun h => absurd h (by decide), fun hh => absurd hh hP⟩,
        ⟨fun _ => ⟨hP, hQ⟩, fun _ => rfl⟩, ?_⟩
      exact ⟨fun h => absurd h (by decide), fun hh => absurd hQ hh.2⟩
    · rw [if_neg h2]
      have hQ : ¬ ("FINAL ANSWER:".toList) <:+: (a.answer.getD "").toList :=
        fun hh => h2 ((isSub_iff _ _).mpr hh)
      refine ⟨⟨fun h => absurd h (by decide), fun hh => absurd hh hP⟩,
        ⟨fun h => absurd h (by decide), fun hh => absurd hh.2 hQ⟩,
        ⟨fun _ => ⟨hP, hQ⟩, fun _ => rfl⟩⟩

/-- C10: the verdict and evidence of `check_criterion` depend only on the
criterion text and the answer text — the `ground_truth` reference-answer
argument is never consulted. -/
theorem check_criterion_ignores_ground_truth (criterion_text answer : String)
    (g1 g2 : String) :
    check_criterion criterion_text answer g1 = check_criterion criterion_text answer g2 :=
  rfl

/-- Ground truth with five correctness criteria of which the submitted
answer meets exactly one (score 20) and one contradiction criterion it does
not meet. -/
def gtC3 : GroundTruthData :=
  { question := "q", answer := "ref", question_type := "t", expert_time := 1,
    rubric :=
      [{ operator := "correctness", criteria := "alpha" },
       { operator := "correctness", criteria := "zzzz qqqq" },
       { operator := "correctness", criteria := "yyyy wwww" },
       { operator := "correctness", criteria := "xxxx vvvv" },
       { operator := "correctness", criteria := "uuuu tttt" },
       { operator := "contradiction", criteria := "zzzz qqqq" }] }

/-- A completed answer meeting only the first criterion of `gtC3`. -/
def ansC3 : AnswerData :=
  { question := none, answer := some "FINAL ANSWER: alpha", sources := some [] }

/-- C3: `has_contradictions` holds exactly when the status is Answered and
some contradiction criterion of the rubric is not met; the 20-point penalty
floored at 0 applies to the correctness score exactly when the flag holds
and the raw correctness score is below 30; and an Answered answer with raw
correctness score 20 and the flag set ends with `final_score = 0`, never
negative. -/
theorem contradiction_flag_and_penalty (n : Nat) (a : AnswerData) (gt : GroundTruthData) :
    ((grade_answer n a gt).has_contradictions = true ↔
      ((grade_answer n a gt).status = "Answered" ∧
        ∃ c ∈ gt.rubric, c.operator = "contradiction" ∧
          (check_criterion c.criteria (a.answer.getD "") gt.answer).1 = false)) ∧
    ((grade_answer n a gt).correctness_score =
      if (grade_answer n a gt).has_contradictions = true ∧
          rawCorrectness gt.rubric (a.answer.getD "") gt.answer < 30 then
        max 0 (rawCorrectness gt.rubric (a.answer.getD "") gt.answer - 20)
      else rawCorrectness gt.rubric (a.answer.getD "") gt.answer) ∧
    ((grade_answer n a gt).status = "Answered" →
      rawCorrectness gt.rubric (a.answer.getD "") gt.answer = 20 →
      (grade_answer n a gt).has_contradictions = true →
      (grade_answer n a gt).final_score = 0 ∧ 0 ≤ (grade_answer n a gt).final_score) := by
  have hS : (grade_answer n a gt).status = statusOf (a.answer.getD "") := rfl
  have hC : (grade_answer n a gt).has_contradictions =
    hasContraFlag gt.rubric (a.answer.getD "") gt.answer := rfl
  have hK : (grade_answer n a gt).correctness_score =
    penalizedScore gt.rubric (a.answer.getD "") gt.answer := rfl
  have hF : (grade_answer n a gt).final_score =
    finalScoreOf gt.rubric (a.answer.getD "") gt.answer := rfl
  rw [hS, hC, hK, hF]
  refine ⟨?_, rfl, ?_⟩
  · unfold hasContraFlag contradictionCriteria
    simp only [Bool.and_eq_true, List.any_eq_true, List.mem_filter, beq_iff_eq,
      Bool.not_eq_true']
    tauto
  · intro hs hr hc
    have hpen : penalizedScore gt.rubric (a.answer.getD "") gt.answer = 0 := by
      unfold penalizedScore
      rw [if_pos ⟨hc, by rw [hr]; norm_num⟩, hr]
      norm_num
    have hfin : finalScoreOf gt.rubric (a.answer.getD "") gt.answer = 0 := by
      unfold finalScoreOf
      rw [hs]
      simpa using hpen
    exact ⟨hfin, by rw [hfin]⟩

theorem rawCorrectness_eq_of_counts (rubric : List Criterion) (t g : String)
    (m L : Nat) (hm : metCount rubric t g = m)
    (hL : (correctnessCriteria rubric).length = L) (h0 : 0 < L) :
    rawCorrectness rubric t g = (m : ℚ) / (L : ℚ) * 100 := by
  unfold rawCorrectness
  rw [hm, hL, if_pos h0]

/-- C3 witness: on the concrete rubric `gtC3` and answer `ansC3` the status
is Answered, the raw correctness score is 20, the contradiction flag is set,
and the theorem gives `final_score = 0`. -/
theorem contradiction_flag_and_penalty_witness :
    (grade_answer 1 ansC3 gtC3).final_score = 0 ∧
    0 ≤ (grade_answer 1 ansC3 gtC3).final_score :=
  (contradiction_flag_and_penalty 1 ansC3 gtC3).2.2 (by decide)
    (by
      rw [rawCorrectness_eq_of_counts gtC3.rubric (ansC3.answer.getD "") gtC3.answer 1 5
        (by decide) (by decide) (by norm_num)]
      norm_num)
    (by decide)

/-- Ground truth with four correctness criteria, no contradiction criteria. -/
def gtC4 : GroundTruthData :=
  { question := "q", answer := "ref", question_type := "t", expert_time := 1,
    rubric :=
      [{ operator := "correctness", criteria := "alpha" },
       { operator := "correctness", criteria := "bravo" },
       { operator := "correctness", criteria := "delta" },
       { operator := "correctness", criteria := "zzzz qqqq" }] }

/-- A completed answer meeting three of the four criteria of `gtC4`. -/
def ansC4A : AnswerData :=
  { question := none, answer := some "FINAL ANSWER: alpha bravo delta", sources := some [] }

/-- The same answer text without the completion marker. -/
def ansC4T : AnswerData :=
  { question := none, answer := some "alpha bravo delta", sources := some [] }

/-- C4: the final score is 0 for Skipped, half the correctness score for
Attempted, and the (possibly penalty-adjusted) correctness score for
Answered; concretely, 3 of 4 criteria met with no contradictions gives
75.0 when Answered and 37.5 when Attempted. -/
theorem final_score_by_status (n : Nat) (a : AnswerData) (gt : GroundTruthData) :
    ((grade_answer n a gt).status = "Skipped" → (grade_answer n a gt).final_score = 0) ∧
    ((grade_answer n a gt).status = "Attempted" →
      (grade_answer n a gt).final_score = (grade_answer n a gt).correctness_score * (1 / 2)) ∧
    ((grade_answer n a gt).status = "Answered" →
      (grade_answer n a gt).final_score = (grade_answer n a gt).correctness_score) ∧
    (grade_answer 1 ansC4A gtC4).status = "Answered" ∧
    (grade_answer 1 ansC4A gtC4).has_contradictions = false ∧
    (grade_answer 1 ansC4A gtC4).correctness_score = 75 ∧
    (grade_answer 1 ansC4A gtC4).final_score = 75 ∧
    (grade_answer 1 ansC4T gtC4).status = "Attempted" ∧
    (grade_answer 1 ansC4T gtC4).final_score = 37.5 := by
  have hS : (grade_answer n a gt).status = statusOf (a.answer.getD "") := rfl
  have hK : (grade_answer n a gt).correctness_score =
    penalizedScore gt.rubric (a.answer.getD "") gt.answer := rfl
  have hF : (grade_answer n a gt).final_score =
    finalScoreOf gt.rubric (a.answer.getD "") gt.answer := rfl
  rw [hS, hK, hF]
  have hcA : hasContraFlag gtC4.rubric (ansC4A.answer.getD "") gtC4.answer = false := by
    decide
  have hcT : hasContraFlag gtC4.rubric (ansC4T.answer.getD "") gtC4.answer = false := by
    decide
  have hrA : rawCorrectness gtC4.rubric (ansC4A.answer.getD "") gtC4.answer = 75 := by
    rw [rawCorrectness_eq_of_counts gtC4.rubric (ansC4A.answer.getD "") gtC4.answer 3 4
      (by decide) (by decide) (by norm_num)]
    norm_num
  have hrT : rawCorrectness gtC4.rubric (ansC4T.answer.getD "") gtC4.answer = 75 := by
    rw [rawCorrectness_eq_of_counts gtC4.rubric (ansC4T.answer.getD "") gtC4.answer 3 4
      (by decide) (by decide) (by norm_num)]
    norm_num
  have hpA : penalizedScore gtC4.rubric (ansC4A.answer.getD "") gtC4.answer = 75 := by
    unfold penalizedScore
    rw [if_neg (by simp [hcA]), hrA]
  have hpT : penalizedScore gtC4.rubric (ansC4T.answer.getD "") gtC4.answer = 75 := by
    unfold penalizedScore
    rw [if_neg (by simp [hcT]), hrT]
  have hstA : statusOf (ansC4A.answer.getD "") = "Answered" := by decide
  have hstT : statusOf (ansC4T.answer.getD "") = "Attempted" := by decide
  have hfA : finalScoreOf gtC4.rubric (ansC4A.answer.getD "") gtC4.answer = 75 := by
    unfold finalScoreOf
    rw [hstA]
    exact hpA
  have hfT : finalScoreOf gtC4.rubric (ansC4T.answer.getD "") gtC4.answer = 37.5 := by
    unfold finalScoreOf
    rw [hstT]
    show penalizedScore gtC4.rubric (ansC4T.answer.getD "") gtC4.answer * (1 / 2) = 37.5
    rw [hpT]
    norm_num
  refine ⟨?_, ?_, ?_, hstA, hcA, hpA, hfA, hstT, hfT⟩
  · intro h
    unfold finalScoreOf
    rw [h]
    rfl
  · intro h
    unfold finalScoreOf
    rw [h]
    rfl
  · intro h
    unfold finalScoreOf
    rw [h]
    rfl

/-- C4 witness: the Attempted-halving clause applied at the concrete input
`ansC4T`/`gtC4`, where it yields 37.5 = 75 · ½. -/
theorem final_score_by_status_witness :
    (grade_answer 1 ansC4T gtC4).final_score =
      (grade_answer 1 ansC4T gtC4).correctness_score * (1 / 2) :=
  (final_score_by_status 1 ansC4T gtC4).2.1 (by decide)

theorem rawCorrectness_nonneg (rubric : List Criterion) (t g : String) :
    0 ≤ rawCorrectness rubric t g := by
  unfold rawCorrectness
  split
  · rename_i h
    have hL : (0:ℚ) < ((correctnessCriteria rubric).length : ℚ) := by exact_mod_cast h
    positivity
  · split
    · norm_num
    · norm_num

theorem rawCorrectness_le_100 (rubric : List Criterion) (t g : String) :
    rawCorrectness rubric t g ≤ 100 := by
  unfold rawCorrectness
  split
  · rename_i h
    have hm : metCount rubric t g ≤ (correctnessCriteria rubric).length :=
      List.countP_le_length _
    have hL : (0:ℚ) < ((correctnessCriteria rubric).length : ℚ) := by exact_mod_cast h
    have hmq : (metCount rubric t g : ℚ) ≤ ((correctnessCriteria rubric).length : ℚ) := by
      exact_mod_cast hm
    rw [div_mul_eq_mul_div, div_le_iff₀ hL]
    nlinarith
  · split
    · norm_num
    · norm_num

theorem penalizedScore_nonneg (rubric : List Criterion) (t g : String) :
    0 ≤ penalizedScore rubric t g := by
  unfold penalizedScore
  split
  · exact le_max_left 0 _
  · exact rawCorrectness_nonneg rubric t g

theorem penalizedScore_le_100 (rubric : List Criterion) (t g : String) :
    penalizedScore rubric t g ≤ 100 := by
  unfold penalizedScore
  split
  · apply max_le
    · norm_num
    · have := rawCorrectness_le_100 rubric t g
      linarith
  · exact rawCorrectness_le_100 rubric t g

/-- C7: for every input whatsoever — any rubric, any answer data, any
ground truth — both the reported correctness score and the final score of
`grade_answer` lie within the interval [0, 100]. -/
theorem grade_answer_scores_in_range (n : Nat) (a : AnswerData) (gt : GroundTruthData) :
    0 ≤ (grade_answer n a gt).correctness_score ∧
    (grade_answer n a gt).correctness_score ≤ 100 ∧
    0 ≤ (grade_answer n a gt).final_score ∧
    (grade_answer n a gt).final_score ≤ 100 := by
  have hK : (grade_answer n a gt).correctness_score =
    penalizedScore gt.rubric (a.answer.getD "") gt.answer := rfl
  have hF : (grade_answer n a gt).final_score =
    finalScoreOf gt.rubric (a.answer.getD "") gt.answer := rfl
  rw [hK, hF]
  have h0 := penalizedScore_nonneg gt.rubric (a.answer.getD "") gt.answer
  have h1 := penalizedScore_le_100 gt.rubric (a.answer.getD "") gt.answer
  refine ⟨h0, h1, ?_, ?_⟩
  · unfold finalScoreOf
    split
    · norm_num
    · split
      · linarith
      · exact h0
  · unfold finalScoreOf
    split
    · norm_num
    · split
      · linarith
      · exact h1

theorem infix_of_append_disjoint (D : List Char) (n r : List Char)
    (h : n <:+: D ++ r) (hd : ∀ c ∈ n, c ∉ D) : n = [] ∨ n <:+: r := by
  induction D with
  | nil => right; simpa using h
  | cons d D' ih =>
    rcases List.infix_cons_iff.mp (by simpa using h) with hp | hi
    · cases n with
      | nil => left; rfl
      | cons e n' =>
        have he : e = d := ( List.cons_prefix_cons.mp hp).1
        exact absurd (by rw [he]; exact List.mem_cons_self d D')
          (hd e (List.mem_cons_self e n'))
    · exact ih hi (fun c hc hmem => hd c hc (List.mem_cons_of_mem d hmem))

theorem infix_stripFA (n s : List Char)
    (hchars : ∀ c ∈ n, pyIsSpace c = false ∧ ¬ c ∈ ("final answer:".toList))
    (h : n <:+: s) : n <:+: stripFA s := by
  unfold stripFA
  split
  · rename_i hpre
    obtain ⟨t, ht⟩ := List.isPrefixOf_iff_prefix.mp hpre
    have hdrop : s.drop 13 = t := by
      rw [← ht]
      have h13 : ("final answer:".toList).length = 13 := by decide
      rw [← h13, List.drop_left]
    rw [hdrop]
    have hs' : s = (("final answer:".toList) ++ t.takeWhile pyIsSpace)
        ++ t.dropWhile pyIsSpace := by
      rw [List.append_assoc, List.takeWhile_append_dropWhile, ht]
    rw [hs'] at h
    have hdisj : ∀ c ∈ n, c ∉ ("final answer:".toList) ++ t.takeWhile pyIsSpace := by
      intro c hc hmem
      rcases List.mem_append.mp hmem with h1 | h2
      · exact (hchars c hc).2 h1
      · have hsp := List.mem_takeWhile_imp h2
        rw [(hchars c hc).1] at hsp
        cases hsp
    rcases infix_of_append_disjoint _ n _ h hdisj with h0 | h1
    · rw [h0]; exact List.nil_infix
    · exact h1
  · exact h

/-- C5: for the criterion "Revenue grew 44.7%", whose only extracted numeric
token is "44.7%", `check_criterion` reports the criterion met against any
answer containing "44.7%" verbatim (the numeric-coverage heuristic: the
token survives lower-casing, the marker-prefix strip and comma removal),
and reports it not met — falling through all three heuristics — against the
answer "44%". -/
theorem criterion_numeric_coverage (a g : String)
    (h : isSub ("44.7%".toList) a.toList = true) :
    (check_criterion "Revenue grew 44.7%" a g).1 = true ∧
    check_criterion "Revenue grew 44.7%" "44%" g =
      (false, "Criterion not clearly met in answer") := by
  constructor
  · have h1 : ("44.7%".toList) <:+: a.toList := (isSub_iff _ _).mp h
    have hmem : '4' ∈ a.toList :=
      h1.sublist.subset (by decide : '4' ∈ ("44.7%".toList))
    have hnb : ¬ (pyIsBlank a.toList = true) := by
      intro hb
      exact absurd ((pyIsBlank_iff a.toList).mp hb '4' hmem) (by decide)
    have h2 : ("44.7%".toList) <:+: lowerL a.toList := by
      obtain ⟨u, v, huv⟩ := h1
      refine ⟨lowerL u, lowerL v, ?_⟩
      rw [← huv]
      unfold lowerL
      rw [List.map_append, List.map_append]
      rw [show List.map Char.toLower ("44.7%".toList) = ("44.7%".toList) from by decide]
    have h3 : ("44.7%".toList) <:+: stripFA (lowerL a.toList) :=
      infix_stripFA _ _ (by decide) h2
    have h4 : ("44.7%".toList) <:+: removeCommas (stripFA (lowerL a.toList)) := by
      obtain ⟨u, v, huv⟩ := h3
      refine ⟨removeCommas u, removeCommas v, ?_⟩
      rw [← huv]
      unfold removeCommas
      rw [List.filter_append, List.filter_append]
      rw [show List.filter (fun c => !(c == ','))
        ("44.7%".toList) = ("44.7%".toList) from by decide]
    have hcond : (!(findNumbers ("Revenue grew 44.7%".toList)).isEmpty &&
        (findNumbers ("Revenue grew 44.7%".toList)).all
          (fun num => isSub (removeCommas num)
            (removeCommas (stripFA (lowerL a.toList))))) = true := by
      rw [show findNumbers ("Revenue grew 44.7%".toList) = [("44.7%".toList)] from by decide]
      simp only [List.all_cons, List.all_nil, Bool.and_true, List.isEmpty_cons,
        Bool.not_false, Bool.true_and]
      rw [show removeCommas ("44.7%".toList) = ("44.7%".toList) from by decide]
      exact (isSub_iff _ _).mpr h4
    simp only [check_criterion]
    rw [if_neg hnb, if_pos hcond]
  · rfl

/-- C5 witness: a concrete answer containing "44.7%" is accepted by the
numeric-coverage heuristic, and "44%" is rejected by all three. -/
theorem criterion_numeric_coverage_witness :
    (check_criterion "Revenue grew 44.7%" "Revenue grew 44.7% year on year" "ref").1 = true ∧
    check_criterion "Revenue grew 44.7%" "44%" "ref" =
      (false, "Criterion not clearly met in answer") :=
  criterion_numeric_coverage "Revenue grew 44.7% year on year" "ref" (by decide)

/-- The ground-truth record built from one csv row (lines 22-28). -/
def rowToGT (r : CsvRow) : GroundTruthData :=
  { question := r.question, answer := r.answer, question_type := r.question_type,
    expert_time := r.expert_time, rubric := r.rubric }

theorem lgtGo_eq (rows : List CsvRow) : ∀ n : Nat,
    lgtGo n rows =
      (List.range' n ((rows.filter (fun r => decide (r.question ≠ ""))).length)).zip
        ((rows.filter (fun r => decide (r.question ≠ ""))).map rowToGT) := by
  induction rows with
  | nil => intro n; rfl
  | cons r rs ih =>
    intro n
    have hcons : lgtGo n (r :: rs) =
        if r.question ≠ "" then (n, rowToGT r) :: lgtGo (n + 1) rs else lgtGo n rs := rfl
    by_cases hq : r.question ≠ ""
    · have hfilt : List.filter (fun x => decide (x.question ≠ "")) (r :: rs)
          = r :: List.filter (fun x => decide (x.question ≠ "")) rs := by
        simp [List.filter_cons, hq]
      rw [hcons, if_pos hq, hfilt, ih (n + 1)]
      simp only [List.length_cons, List.map_cons]
      rw [List.range'_succ n _ 1]
      rfl
    · have hfilt : List.filter (fun x => decide (x.question ≠ "")) (r :: rs)
          = List.filter (fun x => decide (x.question ≠ "")) rs := by
        simp [List.filter_cons, hq]
      rw [hcons, if_neg hq, hfilt, ih n]

theorem load_ground_truth_keys (rows : List CsvRow) :
    (load_ground_truth rows).map Prod.fst =
      List.range' 1 ((rows.filter (fun r => decide (r.question ≠ ""))).length) := by
  unfold load_ground_truth
  rw [lgtGo_eq rows 1]
  apply List.map_fst_zip
  simp

/-- C8: `load_ground_truth` pairs the counter values 1, 2, ... positionally
with the rows whose Question cell is non-empty, in source row order; rows
with an empty Question cell are skipped without advancing the counter, so
the mapping's keys are exactly 1..N for N the number of non-empty rows. -/
theorem load_ground_truth_positional (rows : List CsvRow) :
    load_ground_truth rows =
      (List.range' 1 ((rows.filter (fun r => decide (r.question ≠ ""))).length)).zip
        ((rows.filter (fun r => decide (r.question ≠ ""))).map rowToGT) ∧
    (load_ground_truth rows).map Prod.fst =
      List.range' 1 ((rows.filter (fun r => decide (r.question ≠ ""))).length) :=
  ⟨lgtGo_eq rows 1, load_ground_truth_keys rows⟩

/-- C9: loading a list whose two elements share `question_number = 5` yields
exactly one entry for 5, holding the later element's answer and sources
(with `.get` defaults applied); and an element with missing `answer` and
`sources` fields loads as empty text and an empty source list. -/
theorem load_answers_last_write_wins (it1 it2 : AnswerItem)
    (h1 : it1.question_number = 5) (h2 : it2.question_number = 5) :
    load_answers [it1, it2] =
      [(5, { question := some it2.question, answer := some (it2.answer.getD ""),
             sources := some (it2.sources.getD []) })] ∧
    (∀ it : AnswerItem, it.answer = none → it.sources = none →
      load_answers [it] =
        [(it.question_number,
          { question := some it.question, answer := some "", sources := some [] })]) := by
  constructor
  · unfold load_answers
    simp only [List.foldl_cons, List.foldl_nil]
    rw [show dictSet ([] : List (Nat × AnswerData)) it1.question_number
        { question := some it1.question, answer := some (it1.answer.getD ""),
          sources := some (it1.sources.getD []) }
      = [(it1.question_number,
          { question := some it1.question, answer := some (it1.answer.getD ""),
            sources := some (it1.sources.getD []) })] from rfl]
    unfold dictSet
    rw [h1, h2]
    simp
  · intro it ha hs
    unfold load_answers dictSet
    simp [ha, hs]

/-- Two answer items sharing question number 5: the first has no `sources`
field, the second no `answer` field. -/
def itemC9a : AnswerItem :=
  { question_number := 5, question := "q5", answer := some "first take", sources := none }

/-- The later of the two duplicate items. -/
def itemC9b : AnswerItem :=
  { question_number := 5, question := "q5 again", answer := none,
    sources := some [{ url := some "https://example.com" }] }

/-- C9 witness: the duplicate pair collapses to a single entry carrying the
later item's data, with the missing `answer` defaulted to empty text. -/
theorem load_answers_last_write_wins_witness :
    load_answers [itemC9a, itemC9b] =
      [(5, { question := some "q5 again", answer := some "",
             sources := some [{ url := some "https://example.com" }] })] :=
  (load_answers_last_write_wins itemC9a itemC9b rfl rfl).1

theorem grade_answer_question_num (n : Nat) (a : AnswerData) (gt : GroundTruthData) :
    (grade_answer n a gt).question_num = n := rfl

theorem dictGet?_isSome_iff {α : Type} (d : List (Nat × α)) (q : Nat) :
    (dictGet? d q).isSome = true ↔ q ∈ d.map Prod.fst := by
  unfold dictGet?
  cases hf : List.find? (fun p => p.1 == q) d with
  | none =>
    simp only [Option.map_none', Option.isSome_none]
    constructor
    · intro h; cases h
    · intro hq
      obtain ⟨x, hx, hxq⟩ := List.mem_map.mp hq
      have hnone := List.find?_eq_none.mp hf x hx
      rw [hxq] at hnone
      simp at hnone
  | some p =>
    simp only [Option.map_some', Option.isSome_some, true_iff]
    have hp := List.find?_some hf
    have hpm := List.mem_of_find?_eq_some hf
    exact List.mem_map.mpr ⟨p, hpm, by simpa using hp⟩

theorem filterMap_mark {β : Type} (o : Nat → Option β) (l : List Nat) :
    l.filterMap (fun q => (o q).map (fun _ => q)) =
      l.filter (fun q => (o q).isSome) := by
  induction l with
  | nil => rfl
  | cons x xs ih =>
    cases hx : o x with
    | none => simp [List.filterMap_cons, List.filter_cons, hx, ih]
    | some v => simp [List.filterMap_cons, List.filter_cons, hx, ih]

theorem dictGet?_mem_keys {α : Type} (d : List (Nat × α)) (q : Nat) (v : α)
    (h : dictGet? d q = some v) : q ∈ d.map Prod.fst := by
  apply (dictGet?_isSome_iff d q).mp
  rw [h]
  rfl

/-- C1 (amended): provided the ground truth holds at most 50 questions —
the driver loop of `main` iterates the fixed range 1..50 — the report's
questions list carries exactly one `GradingResult` per ground-truth question
number, in order, `total_questions` equals the ground-truth size N, and a
question with no stored answer is graded with the substitute answer dict of
empty text and no sources. -/
theorem report_covers_ground_truth (rows : List CsvRow) (items : List AnswerItem)
    (hN : (rows.filter (fun r => decide (r.question ≠ ""))).length ≤ 50) :
    (mainGraded rows items).map (fun r => r.question_num) =
      List.range' 1 ((rows.filter (fun r => decide (r.question ≠ ""))).length) ∧
    (mainReport rows items).2.total_questions =
      (rows.filter (fun r => decide (r.question ≠ ""))).length ∧
    (∀ q gtd, dictGet? (load_ground_truth rows) q = some gtd →
      dictGet? (load_answers items) q = none →
      grade_answer q { question := none, answer := some "", sources := some [] } gtd
        ∈ mainGraded rows items) := by
  have hkeys := load_ground_truth_keys rows
  have hmap : (mainGraded rows items).map (fun r => r.question_num) =
      List.range' 1 ((rows.filter (fun r => decide (r.question ≠ ""))).length) := by
    unfold mainGraded
    rw [List.map_filterMap]
    simp only [Option.map_map, Function.comp_def, grade_answer_question_num]
    rw [filterMap_mark (fun q => dictGet? (load_ground_truth rows) q) (List.range' 1 50)]
    have hiff : ∀ q : Nat, (dictGet? (load_ground_truth rows) q).isSome = true ↔
        q ∈ List.range' 1 ((rows.filter (fun r => decide (r.question ≠ ""))).length) := by
      intro q
      rw [dictGet?_isSome_iff, hkeys]
    have h50 : (50 - (rows.filter (fun r => decide (r.question ≠ ""))).length)
        + (rows.filter (fun r => decide (r.question ≠ ""))).length = 50 := by omega
    have hsplit : List.range' 1 ((rows.filter (fun r => decide (r.question ≠ ""))).length)
        ++ List.range' (1 + (rows.filter (fun r => decide (r.question ≠ ""))).length)
            (50 - (rows.filter (fun r => decide (r.question ≠ ""))).length)
        = List.range' 1 50 := by
      have happ := List.range'_append 1
        ((rows.filter (fun r => decide (r.question ≠ ""))).length)
        (50 - (rows.filter (fun r => decide (r.question ≠ ""))).length) 1
      rw [h50] at happ
      simpa using happ
    rw [← hsplit, List.filter_append]
    have hfirst : (List.range' 1 ((rows.filter (fun r => decide (r.question ≠ ""))).length)).filter
        (fun q => (dictGet? (load_ground_truth rows) q).isSome) =
        List.range' 1 ((rows.filter (fun r => decide (r.question ≠ ""))).length) := by
      apply List.filter_eq_self.mpr
      intro q hq
      exact (hiff q).mpr hq
    have hsecond : (List.range' (1 + (rows.filter (fun r => decide (r.question ≠ ""))).length)
        (50 - (rows.filter (fun r => decide (r.question ≠ ""))).length)).filter
        (fun q => (dictGet? (load_ground_truth rows) q).isSome) = [] := by
      rw [List.filter_eq_nil_iff]
      intro q hq hsome
      have hmem := (hiff q).mp hsome
      have hlow := (List.mem_range'_1).mp hq
      have hup := (List.mem_range'_1).mp hmem
      omega
    rw [hfirst, hsecond, List.append_nil]
  refine ⟨hmap, ?_, ?_⟩
  · have hlen : (mainReport rows items).2.total_questions = (mainGraded rows items).length := rfl
    rw [hlen, ← List.length_map (mainGraded rows items) (fun r => r.question_num), hmap]
    simp
  · intro q gtd hgt hans
    have hqmem : q ∈ (load_ground_truth rows).map Prod.fst :=
      dictGet?_mem_keys _ _ _ hgt
    rw [hkeys] at hqmem
    have hq50 : q ∈ List.range' 1 50 := by
      have hb := (List.mem_range'_1).mp hqmem
      exact (List.mem_range'_1).mpr ⟨hb.1, by omega⟩
    unfold mainGraded
    apply List.mem_filterMap.mpr
    refine ⟨q, hq50, ?_⟩
    rw [hgt, hans]
    rfl

/-- A csv row with a non-empty Question cell and an empty rubric. -/
def rowC1 : CsvRow :=
  { question := "q", answer := "a", rubric := [], question_type := "t", expert_time := 1 }

/-- A ground-truth source with 51 question rows. -/
def rowsC1 : List CsvRow := List.replicate 51 rowC1

/-- C1 counterexample: with 51 ground-truth questions, question number 51 is
present in the loaded ground truth but absent from the report, whose
`total_questions` is 50, not 51 — `main` iterates `range(1, 51)` only. -/
theorem report_misses_question_51_cex :
    ((load_ground_truth rowsC1).map Prod.fst).contains 51 = true ∧
    (mainReport rowsC1 []).2.total_questions = 50 ∧
    ((mainGraded rowsC1 []).map (fun r => r.question_num)).contains 51 = false := by
  refine ⟨by decide, ?_, by decide⟩
  have hlen : (mainReport rowsC1 []).2.total_questions = (mainGraded rowsC1 []).length := rfl
  rw [hlen]
  decide

/-- C1 witness: a two-row ground truth (one entry blank) with an empty
answer store is fully covered: one result for question 1, total 1, and the
missing answer graded with the empty substitute. -/
theorem report_covers_ground_truth_witness :
    (mainGraded [rowC1, { rowC1 with question := "" }] []).map (fun r => r.question_num) =
      List.range' 1 1 ∧
    (mainReport [rowC1, { rowC1 with question := "" }] []).2.total_questions = 1 := by
  have h := report_covers_ground_truth [rowC1, { rowC1 with question := "" }] []
    (by decide)
  exact ⟨h.1, h.2.1⟩
